import Mathlib

/-!
Shallow embedding of src/reactchat/src/App.tsx.

The module declares a route tree (a pathless parent Route containing one
child Route with path "/" and element Home), constructs a module-level
router from it via createBrowserRouter (createRoutesFromElements ...),
and exposes a root component App that returns a RouterProvider wrapping
that router. Pages are opaque renderable units; the routing library is
modelled by literal path matching over the declared tree, which is exact
here because every declared path is a literal string with no pattern.
-/

/-- A page is an opaque renderable unit identified by name; this module
never looks inside a page. -/
structure Page where
  name : String
deriving DecidableEq, Repr

/-- The Home page component imported at the top of App.tsx from
pages/Home; opaque in this fragment. -/
def Home : Page := ⟨"Home"⟩

/-- A route element of the JSX route tree: an optional path, an optional
element (page) to render, and a list of child routes, mirroring the
Route JSX element of react-router-dom. -/
inductive RouteElem : Type where
  | mk : Option String → Option Page → List RouteElem → RouteElem

/-- Constructor alias mirroring the Route JSX element. -/
def Route (p : Option String) (e : Option Page) (cs : List RouteElem) : RouteElem :=
  RouteElem.mk p e cs

/-- The path attribute of a route element. -/
def RouteElem.path : RouteElem → Option String
  | .mk p _ _ => p

/-- The element attribute of a route element. -/
def RouteElem.element : RouteElem → Option Page
  | .mk _ e _ => e

/-- The child routes of a route element. -/
def RouteElem.children : RouteElem → List RouteElem
  | .mk _ _ cs => cs

/-- createRoutesFromElements turns the JSX tree into route objects; with
routes already in object form it is the identity on the list. -/
def createRoutesFromElements (rs : List RouteElem) : List RouteElem := rs

/-- A router owns the route tree it was constructed with. -/
structure Router where
  routes : List RouteElem

/-- createBrowserRouter hands the route tree to a new router object. -/
def createBrowserRouter (rs : List RouteElem) : Router := ⟨rs⟩

/-- The route tree declared in App.tsx lines 5-9: one pathless parent
Route with no element, containing one child Route with path "/" and
element Home. -/
def routeTree : List RouteElem :=
  createRoutesFromElements
    [Route none none [Route (some "/") (some Home) []]]

/-- The module-level router constant of App.tsx line 4, constructed once
at module initialization. -/
def router : Router := createBrowserRouter routeTree

/-- Rendered elements: the only element this module produces is a
RouterProvider wrapping a router. -/
inductive ReactElem : Type where
  | routerProvider : Router → ReactElem

/-- The RouterProvider component applied to a router. -/
def RouterProvider (r : Router) : ReactElem := ReactElem.routerProvider r

/-- The router instance referenced by a produced element. -/
def routerOf : ReactElem → Router
  | .routerProvider r => r

/-- The root component App of App.tsx lines 12-14: takes no parameters
and returns a RouterProvider wrapping the module-level router. It is the
default export of the module. -/
def App (_ : Unit) : ReactElem := RouterProvider router

/-- JavaScript call semantics for the zero-parameter App: a caller may
still pass arguments of any type, and they are ignored. -/
def AppCalledWith {α : Type} (_ : α) : ReactElem := App ()

mutual

/-- Route resolution of one route element against a location: a route
with a declared path matches exactly that location (every path declared
here is a literal with no pattern segments), yielding its element; a
pathless route matches through its children and contributes no output of
its own. -/
def resolveElem : RouteElem → String → Option Page
  | .mk p e cs, loc =>
    match p with
    | some pat => if pat = loc then e else none
    | none => resolveList cs loc

/-- Resolution over a list of sibling routes: the first match wins, so at
most one branch is selected. -/
def resolveList : List RouteElem → String → Option Page
  | [], _ => none
  | r :: rs, loc =>
    match resolveElem r loc with
    | some pg => some pg
    | none => resolveList rs loc

end

/-- Render semantics of the provider element: resolve the current
location over the routes owned by the wrapped router. -/
def renderOf : ReactElem → String → Option Page
  | .routerProvider r, loc => resolveList r.routes loc

mutual

/-- The (path, page) pairs declared by a route element and all of its
descendants: the flat route table view of the tree. -/
def routePairs : RouteElem → List (String × Page)
  | .mk p e cs =>
    (match p, e with
     | some pat, some pg => [(pat, pg)]
     | _, _ => []) ++ routePairsList cs

/-- The (path, page) pairs declared by a list of route elements. -/
def routePairsList : List RouteElem → List (String × Page)
  | [] => []
  | r :: rs => routePairs r ++ routePairsList rs

end

/-- The flat route table of the router: every (path, page) pair declared
in the route tree handed to createBrowserRouter. -/
def routeTable : List (String × Page) := routePairsList routeTree

/-- The entries of the route table whose path matches a location; literal
string comparison is exact since every declared path is a literal. -/
def matchingEntries (loc : String) : List (String × Page) :=
  routeTable.filter (fun pr => pr.1 == loc)

/-- One render of the root mount point: it reads the router and produces
the provider element; App.tsx performs no mutation, so the router is
returned unchanged. -/
def renderOnce (r : Router) : Router × ReactElem :=
  (r, RouterProvider r)

/-- The router after t renders of the session, starting from the
module-level router constructed at startup. -/
def sessionState : Nat → Router
  | 0 => router
  | t + 1 => (renderOnce (sessionState t)).1

/-- The elements produced by n repeated mounts of the root component. -/
def mountN (n : Nat) : List ReactElem :=
  List.replicate n (App ())

/-- The route table evaluates to the single pair ("/", Home). -/
theorem routeTable_eq : routeTable = [("/", Home)] := by
  simp [routeTable, routeTree, createRoutesFromElements, Route,
    routePairsList, routePairs]

/-- Resolution of the declared tree at any location reduces to resolution
of the child list of the pathless parent. -/
theorem resolveList_routeTree (loc : String) :
    resolveList routeTree loc =
      resolveList [Route (some "/") (some Home) []] loc := by
  by_cases h : "/" = loc <;>
    simp [routeTree, createRoutesFromElements, Route, resolveList,
      resolveElem, h]

/-- C1: the route table built at startup contains exactly one route
entry, whose path is "/" and whose page is the Home component; no other
(path, page) pair is present in the table. -/
theorem claim_route_table_single :
    routeTable = [("/", Home)] ∧ routeTable.length = 1 ∧
    ∀ pr ∈ routeTable, pr = ("/", Home) := by
  refine ⟨routeTable_eq, ?_, ?_⟩ <;> simp [routeTable_eq]

/-- C2: for the current location "/", route resolution over the route
table matches the entry with path "/", so the rendered output of the
root mount component equals the rendered output of the home page. -/
theorem claim_root_location_renders_home :
    matchingEntries "/" = [("/", Home)] ∧
    renderOf (App ()) "/" = some Home := by
  constructor
  · simp [matchingEntries, routeTable_eq]
  · simp [App, RouterProvider, renderOf, router, createBrowserRouter,
      routeTree, createRoutesFromElements, Route, resolveList, resolveElem]

/-- The session router is the module-level router at every time t, since
the only operation, rendering, returns it unchanged. -/
theorem sessionState_const (t : Nat) : sessionState t = router := by
  induction t with
  | zero => rfl
  | succ t ih => simp [sessionState, renderOnce, ih]

/-- C3: for every location string other than "/", route resolution over
the declared route table produces no match, and no fallback or not-found
route is declared in the table. -/
theorem claim_no_match_for_other_locations (loc : String) (h : loc ≠ "/") :
    matchingEntries loc = [] ∧ renderOf (App ()) loc = none ∧
    ∀ pr ∈ routeTable, pr.1 = "/" := by
  have hne : "/" ≠ loc := Ne.symm h
  have hb : ("/" == loc) = false := beq_eq_false_iff_ne.mpr hne
  refine ⟨?_, ?_, ?_⟩
  · simp [matchingEntries, routeTable_eq, List.filter, hb]
  · show resolveList routeTree loc = none
    rw [resolveList_routeTree]
    simp [Route, resolveList, resolveElem, hne]
  · simp [routeTable_eq]

/-- Witness for C3 at the concrete location "/unknown". -/
theorem claim_no_match_for_other_locations_witness :
    "/unknown" ≠ "/" ∧
    (matchingEntries "/unknown" = [] ∧ renderOf (App ()) "/unknown" = none ∧
      ∀ pr ∈ routeTable, pr.1 = "/") :=
  ⟨by decide, claim_no_match_for_other_locations "/unknown" (by decide)⟩

/-- C4: the router and its route table are constructed once at module
initialization; n repeated mounts of App all return a provider wrapping
that same router, whose routes stay the declared tree, and the table
never accumulates entries. -/
theorem claim_router_constructed_once (n : Nat) :
    mountN n = List.replicate n (RouterProvider router) ∧
    router.routes = routeTree ∧ routeTable.length = 1 := by
  refine ⟨rfl, rfl, ?_⟩
  simp [routeTable_eq]

/-- C5: for every location string, resolution over the route table yields
at most one matching entry. -/
theorem claim_at_most_one_match (loc : String) :
    (matchingEntries loc).length ≤ 1 := by
  rcases Decidable.em ("/" = loc) with h | h
  · simp [matchingEntries, routeTable_eq, List.filter, h]
  · have hb : ("/" == loc) = false := beq_eq_false_iff_ne.mpr h
    simp [matchingEntries, routeTable_eq, List.filter, hb]

/-- C6: path strings are pairwise distinct across the route table, and
the invariant persists: at every time t of the session the router still
owns the originally declared routes, so no entry is ever inserted. -/
theorem claim_paths_unique :
    routeTable.Pairwise (fun a b => a.1 ≠ b.1) ∧
    ∀ t, (sessionState t).routes = routeTree := by
  constructor
  · simp [routeTable_eq]
  · intro t
    rw [sessionState_const]
    rfl

/-- C7: after construction the route table is never mutated: at every
time t of the session the router equals the one built at startup, its
routes equal the declared tree, and the flat table derived from it
equals the startup table. -/
theorem claim_table_immutable (t : Nat) :
    sessionState t = router ∧ (sessionState t).routes = routeTree ∧
    routePairsList (sessionState t).routes = routeTable := by
  refine ⟨sessionState_const t, ?_, ?_⟩ <;> rw [sessionState_const] <;> rfl

/-- C8: the single exposed interface is the default-exported root
component App with no parameters; every invocation returns exactly a
RouterProvider element wrapping the module-level router and nothing
else. -/
theorem claim_app_returns_provider (u : Unit) :
    App u = RouterProvider router ∧ routerOf (App u) = router :=
  ⟨rfl, rfl⟩

/-- C9: the route configuration is a tree, not a flat single-element
list: one parent route with no path and no element, containing exactly
one child with path "/" and element Home; resolution through the
pathless parent coincides with resolution over its children, so the
parent contributes no output of its own. -/
theorem claim_route_config_is_tree :
    routeTree.length = 1 ∧
    (routeTree.all fun r =>
      decide (r.path = none) && decide (r.element = none) &&
      decide (r.children.length = 1)) = true ∧
    ((routeTree.map RouteElem.children).flatten.all fun c =>
      decide (c.path = some "/") && decide (c.element = some Home)) = true ∧
    ∀ loc, resolveList routeTree loc =
      resolveList ((routeTree.map RouteElem.children).flatten) loc := by
  have hj : (routeTree.map RouteElem.children).flatten =
      [Route (some "/") (some Home) []] := by
    simp [routeTree, createRoutesFromElements, Route, RouteElem.children]
  refine ⟨rfl, by decide, ?_, ?_⟩
  · rw [hj]
    decide
  · intro loc
    rw [hj]
    exact resolveList_routeTree loc

/-- C10: App is deterministic and input-independent: any two invocations
with any caller-supplied inputs return the same element, a provider
referencing the module-level router. -/
theorem claim_app_input_independent :
    ∀ (α β : Type) (p : α) (q : β),
      AppCalledWith p = AppCalledWith q ∧
      routerOf (AppCalledWith p) = router := by
  intro α β p q
  exact ⟨rfl, rfl⟩
